import Mathlib

/-!
Verification development for the ChatRelay bot (Go).

Shallow embedding of the core relay logic:
  * `splitIntoSentences`   — internal/bot/bot.go, sentence splitting via
    `regexp.MustCompile("([.!?])\\s+").Split(text, -1)` followed by
    `strings.TrimSpace` and dropping of empty segments.  Go's `regexp.Split`
    removes the whole match (including the captured punctuation class) from
    the output, so the embedding consumes the punctuation character and the
    maximal following whitespace run at each split point.
  * `handleAppMention`     — internal/bot/bot.go, the per-event orchestrator,
    modelled as a pure function of the outcomes of its effectful calls
    (initial send, backend request, per-call update results).
  * `sendMessage`          — internal/slack/client.go, the retry loop of
    `Client.SendMessage`.  Inside the Go loop `_, ts, err := ...` shadows the
    named return value `err`, so the post-loop `fmt.Errorf(..., err)` wraps a
    nil error; the embedding reflects this by wrapping `none`.
  * `sendChatRequest`      — internal/chatbackend/client.go, the retry loop of
    `httpClient.SendChatRequest`.
  * `loadConfig`           — internal/config/config.go, with the Go standard
    library parsers (`time.ParseDuration`, `strconv.Atoi`) and the process
    environment passed in as parameters.
-/

namespace ChatRelay

/-- Model of a Go `error` value: either a base error (API / stdlib produced)
or an error built by `fmt.Errorf` with a message and an optional `%w`-wrapped
cause (`none` models wrapping a nil error, which wraps nothing). -/
inductive GoErr where
  | base (msg : String)
  | wrap (msg : String) (cause : Option GoErr)

/-- Rendering of a Go error as by the `%v` verb: `fmt.Errorf("m: %w", e)`
renders as `"m: " ++ render e`; a nil `%w` operand renders as `%!w(<nil>)`. -/
def GoErr.render : GoErr → String
  | .base m => m
  | .wrap m (some e) => m ++ ": " ++ e.render
  | .wrap m none => m ++ ": %!w(<nil>)"

/-! ## Sentence splitting (internal/bot/bot.go, `splitIntoSentences`) -/

/-- The character class `[.!?]` of the split regex. -/
def isPunct (c : Char) : Bool := c = '.' || c = '!' || c = '?'

/-- Go regexp `\s` (Perl whitespace): `[\t\n\f\r ]`. -/
def isRegexSpace (c : Char) : Bool :=
  c = ' ' || c = '\t' || c = '\n' || c = '\x0c' || c = '\r'

/-- Whitespace trimmed by Go `strings.TrimSpace` (`unicode.IsSpace`),
restricted to the Latin-1 range: `\t \n \v \f \r ' ' U+0085 U+00A0`.
(The full Unicode space category is not needed for this development.) -/
def isGoSpace (c : Char) : Bool :=
  c = ' ' || c = '\t' || c = '\n' || c = '\x0b' || c = '\x0c' || c = '\r' ||
  c = '\x85' || c = '\xa0'

/-- Is the first character of the list a regex whitespace character? -/
def headIsSpace : List Char → Bool
  | [] => false
  | d :: _ => isRegexSpace d

/-- `regexp.MustCompile("([.!?])\\s+").Split(text, -1)` as a left-to-right
scan.  A match is a punctuation character immediately followed by at least
one regex-whitespace character; the whole match (punctuation plus the
maximal whitespace run, `\s+` being greedy) separates two chunks and is
dropped.  `skip = true` means the scanner is still inside the whitespace run
of the current match; `acc` holds the current chunk in reverse. -/
def splitGo (skip : Bool) : List Char → List Char → List (List Char)
  | [], acc => [acc.reverse]
  | c :: rest, acc =>
    if skip && isRegexSpace c then
      splitGo true rest acc
    else if isPunct c && headIsSpace rest then
      acc.reverse :: splitGo true rest []
    else
      splitGo false rest (c :: acc)

/-- Go `strings.TrimSpace` on a character list. -/
def goTrimSpace (l : List Char) : List Char :=
  ((l.dropWhile isGoSpace).reverse.dropWhile isGoSpace).reverse

/-- `splitIntoSentences` from internal/bot/bot.go: regex split, then
`strings.TrimSpace` each piece and drop the empty ones. -/
def splitIntoSentences (text : String) : List String :=
  ((splitGo false text.data []).map (fun l => String.mk (goTrimSpace l))).filter
    (fun s => s ≠ "")

/-- A string contains a sentence-boundary delimiter iff some `.`, `!` or `?`
in it is immediately followed by a regex-whitespace character. -/
def hasDelim : List Char → Bool
  | c :: rest => (isPunct c && headIsSpace rest) || hasDelim rest
  | [] => false

/-! ## Conversation tracker (internal/bot/bot.go, `ongoingConversations`)

The Go map `map[string]string` with assignment, `delete` and read, accessed
under `b.mu`; within one sequential run it is a plain finite map, modelled
as a function `String → Option String`. -/

/-- The tracker state: conversation key ↦ timestamp of the tracked message. -/
def Tracker := String → Option String

/-- The empty map created by `NewChatRelayBot`. -/
def Tracker.empty : Tracker := fun _ => none

/-- `b.ongoingConversations[key] = ts` (map assignment, overwrites). -/
def Tracker.register (tr : Tracker) (key ts : String) : Tracker :=
  fun k => if k = key then some ts else tr k

/-- `delete(b.ongoingConversations, key)`. -/
def Tracker.unregister (tr : Tracker) (key : String) : Tracker :=
  fun k => if k = key then none else tr k

/-! ## The orchestrator (internal/bot/bot.go, `HandleAppMention`) -/

/-- `models.SlackEvent` (pkg/models/models.go), the fields consumed by
`HandleAppMention`. -/
structure SlackEvent where
  channel : String
  user : String
  text : String
deriving DecidableEq

/-- An observable effectful call made by `HandleAppMention`:
`slackClient.SendMessage`, `backendClient.SendChatRequest`, or
`slackClient.UpdateMessage`. -/
inductive Action where
  | send (channel text : String)
  | backend (userID query : String)
  | update (channel ts text : String)
deriving DecidableEq

/-- Number of `UpdateMessage` calls in an action trace. -/
def countUpd : List Action → Nat
  | [] => 0
  | .update _ _ _ :: rest => countUpd rest + 1
  | _ :: rest => countUpd rest

/-- Outcomes of the effectful calls a single `HandleAppMention` run makes:
the initial `SendMessage` (returning a timestamp on success), the backend
`SendChatRequest` (returning the full response on success), and the k-th
`UpdateMessage` call of the run (`none` = success). -/
structure World where
  sendRes : Except GoErr String
  backendRes : Except GoErr String
  updRes : Nat → Option GoErr

/-- What one `HandleAppMention` run produces: the returned error (`none` for
a nil return), the tracker state on return, and the trace of effectful
calls in order. -/
structure RunResult where
  err : Option GoErr
  tracker : Tracker
  actions : List Action

/-- The streaming loop of `HandleAppMention`: for each sentence, append it
to `currentResponse`, append `"..."` unless it is the last sentence, and
call `UpdateMessage` with the current buffer (its error is only logged). -/
def deliverLoop (ch ts : String) : List String → String → List Action
  | [], _ => []
  | s :: rest, cur =>
    let cur' := cur ++ s ++ (if rest = [] then "" else "...")
    .update ch ts cur' :: deliverLoop ch ts rest cur'

/-- `ChatRelayBot.HandleAppMention` (internal/bot/bot.go), with the nil
slack-client guard elided (the client is assumed configured) and the
effectful calls replaced by the outcomes recorded in `w`. -/
def handleAppMention (w : World) (ev : SlackEvent) (tr : Tracker) : RunResult :=
  match w.sendRes with
  | .error e =>
      { err := some (.wrap "failed to send initial message" (some e))
        tracker := tr
        actions := [.send ev.channel "Thinking..."] }
  | .ok ts =>
    let conversationKey := ev.channel ++ "-" ++ ev.user
    let tr1 := tr.register conversationKey ts
    match w.backendRes with
    | .error e =>
        -- the error-report update's own failure is only logged
        { err := some (.wrap "backend communication failed" (some e))
          tracker := tr1
          actions := [.send ev.channel "Thinking...",
                      .backend ev.user ev.text,
                      .update ev.channel ts
                        ("Apologies, I encountered an error: " ++ e.render)] }
    | .ok fullResponse =>
      let sentences := splitIntoSentences fullResponse
      let finalMessage := fullResponse ++ "\n\n_Powered by ChatRelay_"
      let acts := .send ev.channel "Thinking..." ::
                  .backend ev.user ev.text ::
                  (deliverLoop ev.channel ts sentences "" ++
                   [.update ev.channel ts finalMessage])
      -- the final UpdateMessage is the (sentences.length)-th update call
      match w.updRes sentences.length with
      | some e =>
          { err := some (.wrap "failed to send final message" (some e))
            tracker := tr1
            actions := acts }
      | none =>
          { err := none
            tracker := tr1.unregister conversationKey
            actions := acts }

/-! ## The Slack send retry loop (internal/slack/client.go, `SendMessage`)

`attempt i` is the outcome of `c.api.PostMessageContext` on the i-th
iteration.  `remaining` counts the iterations still allowed after the
current one (`retryCount - i`), mirroring the loop guard `i <= retryCount`
and the retry condition `i < retryCount`.  The error of a failed attempt is
bound by `:=` inside the loop body and therefore shadows the named return
`err`; the post-loop `fmt.Errorf("... after %d retries: %w", err)` hence
wraps the still-nil named return, modelled by the cause `none`.  The second
component counts how many times the operation was invoked. -/

def sendLoop (attempt : Nat → Except GoErr String) (retryCount : Nat) :
    Nat → Nat → Except GoErr String × Nat
  | i, 0 =>
    match attempt i with
    | .ok ts => (.ok ts, i + 1)
    | .error _ =>
        (.error (.wrap ("failed to send message to Slack after " ++
          toString retryCount ++ " retries") none), i + 1)
  | i, r + 1 =>
    match attempt i with
    | .ok ts => (.ok ts, i + 1)
    | .error _ => sendLoop attempt retryCount (i + 1) r

/-- `Client.SendMessage` for a non-negative configured retry count. -/
def sendMessage (retryCount : Nat) (attempt : Nat → Except GoErr String) :
    Except GoErr String × Nat :=
  sendLoop attempt retryCount 0 retryCount

/-! ## The backend retry loop (internal/chatbackend/client.go,
`SendChatRequest`) -/

/-- Outcome of one `c.httpClient.Do` call: a transport error, or a response
with a status code and the result of reading its body. -/
inductive HttpOutcome where
  | transportErr (e : GoErr)
  | response (status : Nat) (bodyRead : Except GoErr String)

/-- Is this attempt outcome one the Go loop retries (transport failure or
non-200 status)? -/
def HttpOutcome.retriable : HttpOutcome → Prop
  | .transportErr _ => True
  | .response status _ => status ≠ 200

instance : DecidablePred HttpOutcome.retriable := fun o => by
  cases o with
  | transportErr e => exact .isTrue trivial
  | response status bodyRead => exact inferInstanceAs (Decidable (status ≠ 200))

/-- The body string used in the non-OK error message:
`bodyBytes, _ := io.ReadAll(httpRes.Body)` ignores the read error. -/
def bodyOrEmpty : Except GoErr String → String
  | .ok b => b
  | .error _ => ""

/-- The `httpRes.StatusCode == http.StatusOK` tail of one attempt: read the
body and unmarshal it.  A body-read failure or an undecodable body returns
immediately — this path never retries. -/
def chatFinish (decode : String → Except GoErr String)
    (bodyRead : Except GoErr String) (i : Nat) : Except GoErr String × Nat :=
  match bodyRead with
  | .error e => (.error (.wrap "failed to read response body" (some e)), i + 1)
  | .ok body =>
    match decode body with
    | .error e => (.error (.wrap "failed to unmarshal response" (some e)), i + 1)
    | .ok res => (.ok res, i + 1)

/-- The retry loop of `httpClient.SendChatRequest`.  `decode` models
`json.Unmarshal` into `models.ChatResponse` (returning the `full_response`
field), `attempt i` the i-th HTTP attempt, `remaining = retryCount - i`
(so `remaining = 0` is the final iteration of `for i := 0; i <= c.retryCount`).
A transport failure or a non-200 status is retried while `i < c.retryCount`;
the status-200 path is `chatFinish`.  The second component counts the HTTP
attempts made. -/
def chatLoop (retryCount : Nat) (decode : String → Except GoErr String)
    (attempt : Nat → HttpOutcome) : Nat → Nat → Except GoErr String × Nat
  | i, 0 =>
    match attempt i with
    | .transportErr e =>
        (.error (.wrap ("HTTP request to chat backend failed after " ++
          toString retryCount ++ " retries") (some e)), i + 1)
    | .response status bodyRead =>
      if status ≠ 200 then
        (.error (.wrap ("chat backend returned error status after " ++
          toString retryCount ++ " retries")
          (some (.base ("chat backend returned non-OK status: " ++
            toString status ++ ", body: " ++ bodyOrEmpty bodyRead)))), i + 1)
      else
        chatFinish decode bodyRead i
  | i, r + 1 =>
    match attempt i with
    | .transportErr _ => chatLoop retryCount decode attempt (i + 1) r
    | .response status bodyRead =>
      if status ≠ 200 then
        chatLoop retryCount decode attempt (i + 1) r
      else
        chatFinish decode bodyRead i

/-- `httpClient.SendChatRequest` for a non-negative configured retry count
(the marshalling of the request, which cannot fail for these value types,
is elided). -/
def sendChatRequest (retryCount : Nat) (decode : String → Except GoErr String)
    (attempt : Nat → HttpOutcome) : Except GoErr String × Nat :=
  chatLoop retryCount decode attempt 0 retryCount

/-! ## Configuration loading (internal/config/config.go, `LoadConfig`)

The process environment after `godotenv.Load()` is a function
`String → Option String` (`os.LookupEnv`).  The Go standard library parsers
`time.ParseDuration` and `strconv.Atoi` are passed in as parameters
(durations as nanosecond counts, `strconv.Atoi` results as integers); a
parser returns `none` exactly when the Go function returns a non-nil
error. -/

/-- `os.LookupEnv`: `none` = unset. -/
def Env := String → Option String

/-- `models.AppConfig` (pkg/models/models.go), durations in nanoseconds. -/
structure AppConfig where
  SlackAppToken : String
  SlackBotToken : String
  ChatBackendURL : String
  ListenPort : String
  MockBackendPort : String
  TelemetryExporter : String
  TelemetryEndpoint : String
  ServiceName : String
  RequestTimeout : Int
  SlackAPIRetryCount : Int
  SlackAPIRetryDelay : Int
  BackendAPIRetryCount : Int
  BackendAPIRetryDelay : Int

/-- The `getEnv` helper closure in `LoadConfig`. -/
def getEnv (env : Env) (key defaultValue : String) : String :=
  match env key with
  | some value => value
  | none => defaultValue

/-- The `getRequiredEnv` helper closure in `LoadConfig`: the variable must
exist and be non-empty. -/
def getRequiredEnv (env : Env) (key : String) : Except String String :=
  match env key with
  | some value =>
      if value = "" then
        .error ("required environment variable " ++ key ++ " not set")
      else
        .ok value
  | none => .error ("required environment variable " ++ key ++ " not set")

/-- The shape of each optional-parameter block in `LoadConfig`: if the
variable is set and non-empty, parse it, falling back to the default on a
parse error; otherwise use the default. -/
def optParse {A : Type} (parse : String → Option A) (env : Env)
    (key : String) (dflt : A) : A :=
  let s := getEnv env key ""
  if s = "" then dflt
  else
    match parse s with
    | some v => v
    | none => dflt

/-- One second in Go `time.Duration` units (nanoseconds). -/
def second : Int := 1000000000

/-- `config.LoadConfig` (internal/config/config.go): the three required
variables are loaded with `getRequiredEnv`, each failure returned
immediately; everything else defaults. -/
def loadConfig (parseDuration : String → Option Int)
    (atoi : String → Option Int) (env : Env) : Except String AppConfig :=
  match getRequiredEnv env "SLACK_APP_TOKEN" with
  | .error e => .error e
  | .ok appToken =>
  match getRequiredEnv env "SLACK_BOT_TOKEN" with
  | .error e => .error e
  | .ok botToken =>
  match getRequiredEnv env "CHAT_BACKEND_URL" with
  | .error e => .error e
  | .ok backendURL =>
    .ok
      { SlackAppToken := appToken
        SlackBotToken := botToken
        ChatBackendURL := backendURL
        ListenPort := getEnv env "LISTEN_PORT" "8080"
        MockBackendPort := getEnv env "MOCK_BACKEND_PORT" "8081"
        TelemetryExporter := getEnv env "OTEL_EXPORTER_OTLP_PROTOCOL" "grpc"
        TelemetryEndpoint := getEnv env "OTEL_EXPORTER_OTLP_ENDPOINT" "localhost:4317"
        ServiceName := getEnv env "OTEL_SERVICE_NAME" "chatrelay-bot"
        RequestTimeout := optParse parseDuration env "REQUEST_TIMEOUT" (30 * second)
        SlackAPIRetryCount := optParse atoi env "SLACK_API_RETRY_COUNT" 3
        SlackAPIRetryDelay := optParse parseDuration env "SLACK_API_RETRY_DELAY" second
        BackendAPIRetryCount := optParse atoi env "BACKEND_API_RETRY_COUNT" 3
        BackendAPIRetryDelay := optParse parseDuration env "BACKEND_API_RETRY_DELAY" second }

/-- A required environment variable is missing for `getRequiredEnv`:
unset or set to the empty string. -/
def reqMissing (env : Env) (key : String) : Prop :=
  env key = none ∨ env key = some ""

/-! ## Concrete inputs used by the closed theorems below -/

/-- A mention event in channel `C1` by user `U1`. -/
def evC1 : SlackEvent := { channel := "C1", user := "U1", text := "ping" }

/-- A run in which the placeholder send succeeds and the backend fails. -/
def backendFailWorld : World :=
  { sendRes := .ok "111"
    backendRes := .error (.base "backend down")
    updRes := fun _ => none }

/-- A run in which the backend answers `Pong.` but every update fails, in
particular the final one. -/
def finalFailWorld : World :=
  { sendRes := .ok "222"
    backendRes := .ok "Pong."
    updRes := fun _ => some (.base "update failed") }

/-- A run in which the initial placeholder send itself fails. -/
def sendFailWorld : World :=
  { sendRes := .error (.base "slack unavailable")
    backendRes := .ok "unused"
    updRes := fun _ => none }

/-- A run with answer `A. B` (two sentences) in which both intermediate
updates fail but the final one succeeds. -/
def glitchWorld : World :=
  { sendRes := .ok "333"
    backendRes := .ok "A. B"
    updRes := fun k => if k < 2 then some (.base "glitch") else none }

/-- A run with answer `Pong.` in which every update succeeds. -/
def pongWorld : World :=
  { sendRes := .ok "444"
    backendRes := .ok "Pong."
    updRes := fun _ => none }

/-- An operation that fails on every attempt. -/
def alwaysFailAttempt : Nat → Except GoErr String :=
  fun _ => .error (.base "network down")

/-- HTTP attempts that always yield a 200 response with an unparsable
body. -/
def malformedBodyAttempt : Nat → HttpOutcome :=
  fun _ => .response 200 (.ok "not json")

/-- A decoder that rejects every body, as `json.Unmarshal` does on a
malformed payload. -/
def failDecode : String → Except GoErr String :=
  fun _ => .error (.base "invalid character")

/-- HTTP attempts that always yield a 500 response. -/
def always500Attempt : Nat → HttpOutcome :=
  fun _ => .response 500 (.ok "oops")

/-- HTTP attempts: a transport failure, then a 500, then a 200 response
whose body will not decode. -/
def mixedMalformedAttempt : Nat → HttpOutcome
  | 0 => .transportErr (.base "connection refused")
  | 1 => .response 500 (.ok "oops")
  | _ => .response 200 (.ok "garbage")

/-- An environment with the three required variables set and a malformed
`REQUEST_TIMEOUT`. -/
def env0 : Env := fun k =>
  if k = "SLACK_APP_TOKEN" then some "xapp-1"
  else if k = "SLACK_BOT_TOKEN" then some "xoxb-1"
  else if k = "CHAT_BACKEND_URL" then some "http://localhost:8081"
  else if k = "REQUEST_TIMEOUT" then some "thirty seconds"
  else none

/-- A duration parser that rejects everything (in particular the malformed
`REQUEST_TIMEOUT` of `env0`). -/
def pd0 : String → Option Int := fun _ => none

/-- An integer parser that rejects everything. -/
def atoi0 : String → Option Int := fun _ => none

/-! ## Helper lemmas -/

theorem countUpd_append (l1 l2 : List Action) :
    countUpd (l1 ++ l2) = countUpd l1 + countUpd l2 := by
  induction l1 with
  | nil => simp [countUpd]
  | cons a rest ih =>
    cases a <;> simp [countUpd, ih]
    omega

theorem countUpd_deliverLoop (ch ts : String) (ss : List String) :
    ∀ cur, countUpd (deliverLoop ch ts ss cur) = ss.length := by
  induction ss with
  | nil => intro cur; simp [deliverLoop, countUpd]
  | cons s rest ih => intro cur; simp [deliverLoop, countUpd, ih]

/-! ## Claims -/

/-- C1: the claim states that every run that registered its conversation key
removes it again on every exit path.  In the code the
`delete(b.ongoingConversations, conversationKey)` is only reached on the
success path: both the backend-failure return and the final-update-failure
return leave the entry registered.  This theorem evaluates the model on the
two error paths: each run returns an error, yet the tracker still holds the
key `C1-U1` afterwards — a leaked entry. -/
theorem handleAppMention_leaks_tracker_on_error :
    ((handleAppMention backendFailWorld evC1 Tracker.empty).err.isSome = true ∧
     (handleAppMention backendFailWorld evC1 Tracker.empty).tracker "C1-U1" = some "111") ∧
    ((handleAppMention finalFailWorld evC1 Tracker.empty).err.isSome = true ∧
     (handleAppMention finalFailWorld evC1 Tracker.empty).tracker "C1-U1" = some "222") := by
  exact ⟨⟨rfl, by decide⟩, ⟨rfl, by decide⟩⟩

/-- C2: the claim states that the delimiter punctuation is retained on the
end of the preceding segment, with `"Hello there. How are you? Fine!"`
mapping to `["Hello there.", "How are you?", "Fine!"]`.  Go's `regexp.Split`
removes the entire match — including the captured `([.!?])` — so the code
actually drops the punctuation at every split point and returns
`["Hello there", "How are you", "Fine!"]`. -/
theorem splitIntoSentences_drops_delimiters :
    splitIntoSentences "Hello there. How are you? Fine!" =
      ["Hello there", "How are you", "Fine!"] ∧
    splitIntoSentences "Hello there. How are you? Fine!" ≠
      ["Hello there.", "How are you?", "Fine!"] := by
  decide

/-- C4: the claim states that when every attempt fails, the wrapper returns
an exhausted-retries error wrapping the last underlying failure.  In
`Client.SendMessage` the loop binds `_, ts, err := ...`, shadowing the named
return `err`, so the post-loop `fmt.Errorf("... after %d retries: %w", err)`
wraps the still-nil outer `err`.  Evaluating the model with `retryCount = 1`
and an operation that always fails with `network down`: the operation is
invoked `2 = n+1` times (that part of the claim holds), but the returned
error wraps `none` — not the last underlying failure. -/
theorem sendMessage_exhausted_error_wraps_nil :
    sendMessage 1 alwaysFailAttempt =
      (.error (.wrap "failed to send message to Slack after 1 retries" none), 2) := by
  rfl

/-- C7: if the initial placeholder send fails, `HandleAppMention` returns an
error wrapping that failure, leaves the conversation tracker exactly as it
was, and makes no backend call and no message update (its only effectful
call is the failed send). -/
theorem handleAppMention_initial_send_failure (w : World) (ev : SlackEvent)
    (tr : Tracker) (e : GoErr) (h : w.sendRes = .error e) :
    (handleAppMention w ev tr).err =
      some (.wrap "failed to send initial message" (some e)) ∧
    (handleAppMention w ev tr).tracker = tr ∧
    (handleAppMention w ev tr).actions = [.send ev.channel "Thinking..."] := by
  simp [handleAppMention, h]

/-- Witness for C7 at the concrete run `sendFailWorld`. -/
theorem handleAppMention_initial_send_failure_witness :
    (handleAppMention sendFailWorld evC1 Tracker.empty).err =
      some (.wrap "failed to send initial message" (some (.base "slack unavailable"))) ∧
    (handleAppMention sendFailWorld evC1 Tracker.empty).tracker = Tracker.empty ∧
    (handleAppMention sendFailWorld evC1 Tracker.empty).actions =
      [.send "C1" "Thinking..."] :=
  handleAppMention_initial_send_failure sendFailWorld evC1 Tracker.empty
    (.base "slack unavailable") rfl

/-- C9: registering a delivery handle for a key that already has one
overwrites the existing entry: the double registration equals a single
registration of the second handle, lookup yields the second handle, and
when the handles differ the first one is no longer tracked under the key. -/
theorem register_overwrites (tr : Tracker) (k v1 v2 : String) (h : v1 ≠ v2) :
    (Tracker.register (Tracker.register tr k v1) k v2) k = some v2 ∧
    Tracker.register (Tracker.register tr k v1) k v2 = Tracker.register tr k v2 ∧
    (Tracker.register (Tracker.register tr k v1) k v2) k ≠ some v1 := by
  refine ⟨by simp [Tracker.register], ?_, by simp [Tracker.register, h, Ne.symm h]⟩
  funext x
  by_cases hx : x = k <;> simp [Tracker.register, hx]

/-- C5: in the delivery loop of `HandleAppMention`, intermediate update
failures never abort the run: whenever the placeholder send and the backend
call succeed, the run's outcome is decided solely by the one final update
(the `(splitIntoSentences full).length`-th update call) — the run returns
nil exactly when that final update succeeds, whatever the intermediate
outcomes were — and one update is issued per segment plus the single final
one, regardless of intermediate failures. -/
theorem handleAppMention_intermediate_failures_tolerated (w : World)
    (ev : SlackEvent) (tr : Tracker) (ts full : String)
    (hs : w.sendRes = .ok ts) (hb : w.backendRes = .ok full) :
    ((handleAppMention w ev tr).err = none ↔
      w.updRes (splitIntoSentences full).length = none) ∧
    countUpd (handleAppMention w ev tr).actions =
      (splitIntoSentences full).length + 1 := by
  simp only [handleAppMention, hs, hb]
  cases h : w.updRes (splitIntoSentences full).length <;>
    simp [h, countUpd, countUpd_append, countUpd_deliverLoop]

/-- Witness for C5 at `glitchWorld`: answer `A. B`, both intermediate
updates fail, the final one succeeds, and the run still returns nil. -/
theorem handleAppMention_intermediate_failures_tolerated_witness :
    ((handleAppMention glitchWorld evC1 Tracker.empty).err = none ↔
      glitchWorld.updRes (splitIntoSentences "A. B").length = none) ∧
    countUpd (handleAppMention glitchWorld evC1 Tracker.empty).actions =
      (splitIntoSentences "A. B").length + 1 :=
  handleAppMention_intermediate_failures_tolerated glitchWorld evC1
    Tracker.empty "333" "A. B" rfl rfl

/-- C6: on a successful run, the last effectful call of `HandleAppMention`
is a single final update whose text is the unmodified full answer followed
by the footer `"\n\n_Powered by ChatRelay_"`; the update count is one per
segment plus exactly this one final update, and the run returns nil. -/
theorem handleAppMention_final_update_text (w : World) (ev : SlackEvent)
    (tr : Tracker) (ts full : String)
    (hs : w.sendRes = .ok ts) (hb : w.backendRes = .ok full)
    (hf : w.updRes (splitIntoSentences full).length = none) :
    (handleAppMention w ev tr).actions.getLast? =
      some (.update ev.channel ts (full ++ "\n\n_Powered by ChatRelay_")) ∧
    countUpd (handleAppMention w ev tr).actions =
      (splitIntoSentences full).length + 1 ∧
    (handleAppMention w ev tr).err = none := by
  simp only [handleAppMention, hs, hb, hf]
  refine ⟨?_, ?_, by trivial⟩
  · rw [show (Action.send ev.channel "Thinking..." :: .backend ev.user ev.text ::
        (deliverLoop ev.channel ts (splitIntoSentences full) "" ++
         [.update ev.channel ts (full ++ "\n\n_Powered by ChatRelay_")])) =
        ((Action.send ev.channel "Thinking..." :: .backend ev.user ev.text ::
          deliverLoop ev.channel ts (splitIntoSentences full) "") ++
         [.update ev.channel ts (full ++ "\n\n_Powered by ChatRelay_")]) by simp]
    exact List.getLast?_concat _
  · simp [countUpd, countUpd_append, countUpd_deliverLoop]

/-- Witness for C6 at `pongWorld`: the answer `Pong.` produces the final
update text `Pong.\n\n_Powered by ChatRelay_` as the last call, with two
update calls in total (one segment, one final). -/
theorem handleAppMention_final_update_text_witness :
    (handleAppMention pongWorld evC1 Tracker.empty).actions.getLast? =
      some (.update "C1" "444" "Pong.\n\n_Powered by ChatRelay_") ∧
    countUpd (handleAppMention pongWorld evC1 Tracker.empty).actions =
      (splitIntoSentences "Pong.").length + 1 ∧
    (handleAppMention pongWorld evC1 Tracker.empty).err = none :=
  handleAppMention_final_update_text pongWorld evC1 Tracker.empty "444" "Pong."
    rfl rfl rfl

/-- C8 counterexample: the whitespace-only string `" "` contains no
sentence-boundary delimiter, yet `splitIntoSentences` returns no segment at
all (the single trimmed chunk is empty and is dropped), not exactly one
segment equal to the trimmed input. -/
theorem splitIntoSentences_blank_no_segment :
    hasDelim " ".data = false ∧ splitIntoSentences " " = [] := by
  decide

theorem splitGo_no_delim (l : List Char) (h : hasDelim l = false) :
    ∀ acc, splitGo false l acc = [acc.reverse ++ l] := by
  induction l with
  | nil => intro acc; simp [splitGo]
  | cons c rest ih =>
    intro acc
    rw [show hasDelim (c :: rest) =
        ((isPunct c && headIsSpace rest) || hasDelim rest) from rfl,
      Bool.or_eq_false_iff] at h
    obtain ⟨h1, h2⟩ := h
    simp [splitGo, h1, ih h2, List.reverse_cons, List.append_assoc]

/-- C8 (amended): for every string with no sentence-boundary delimiter
whose trimmed form is non-empty, `splitIntoSentences` returns exactly one
segment equal to the trimmed input. -/
theorem splitIntoSentences_no_delim (s : String)
    (hnd : hasDelim s.data = false)
    (hne : String.mk (goTrimSpace s.data) ≠ "") :
    splitIntoSentences s = [String.mk (goTrimSpace s.data)] := by
  unfold splitIntoSentences
  rw [splitGo_no_delim s.data hnd []]
  simp [List.filter, hne]

/-- Witness for the amended C8 on the single-sentence string `Hello`. -/
theorem splitIntoSentences_no_delim_witness :
    splitIntoSentences "Hello" = [String.mk (goTrimSpace "Hello".data)] :=
  splitIntoSentences_no_delim "Hello" (by decide) (by decide)

theorem chatLoop_all_retriable (rc : Nat) (decode : String → Except GoErr String)
    (attempt : Nat → HttpOutcome) :
    ∀ r i, (∀ j, j ≤ r → (attempt (i + j)).retriable) →
      (chatLoop rc decode attempt i r).2 = i + r + 1 ∧
      ∃ e, (chatLoop rc decode attempt i r).1 = .error e := by
  intro r
  induction r with
  | zero =>
    intro i h
    have h0 := h 0 (Nat.le_refl 0)
    rw [Nat.add_zero] at h0
    cases ha : attempt i with
    | transportErr e => simp [chatLoop, ha]
    | response status bodyRead =>
      rw [ha] at h0
      simp only [HttpOutcome.retriable] at h0
      simp [chatLoop, ha, h0]
  | succ r ih =>
    intro i h
    have h0 := h 0 (Nat.zero_le _)
    rw [Nat.add_zero] at h0
    have hshift : ∀ j, j ≤ r → (attempt (i + 1 + j)).retriable := by
      intro j hj
      have := h (j + 1) (by omega)
      rwa [show i + (j + 1) = i + 1 + j by omega] at this
    cases ha : attempt i with
    | transportErr e =>
      have := ih (i + 1) hshift
      constructor
      · simp only [chatLoop, ha]
        omega
      · simpa [chatLoop, ha] using this.2
    | response status bodyRead =>
      rw [ha] at h0
      simp only [HttpOutcome.retriable] at h0
      have := ih (i + 1) hshift
      constructor
      · simp only [chatLoop, ha, if_pos h0]
        omega
      · simpa [chatLoop, ha, if_pos h0] using this.2

theorem chatLoop_stop_200 (rc : Nat) (decode : String → Except GoErr String)
    (attempt : Nat → HttpOutcome) :
    ∀ k i r, k ≤ r → (∀ j, j < k → (attempt (i + j)).retriable) →
      ∀ b, attempt (i + k) = .response 200 (.ok b) →
      chatLoop rc decode attempt i r = chatFinish decode (.ok b) (i + k) := by
  intro k
  induction k with
  | zero =>
    intro i r _ _ b hb
    rw [Nat.add_zero] at hb
    cases r <;> simp [chatLoop, hb]
  | succ k ih =>
    intro i r hk hpre b hb
    cases r with
    | zero => omega
    | succ r =>
      have h0 := hpre 0 (Nat.succ_pos k)
      rw [Nat.add_zero] at h0
      have hshift : ∀ j, j < k → (attempt (i + 1 + j)).retriable := by
        intro j hj
        have := hpre (j + 1) (by omega)
        rwa [show i + (j + 1) = i + 1 + j by omega] at this
      have hb' : attempt (i + 1 + k) = .response 200 (.ok b) := by
        rwa [show i + (k + 1) = i + 1 + k by omega] at hb
      have := ih (i + 1) r (by omega) hshift b hb'
      rw [show i + (k + 1) = i + 1 + k by omega]
      cases ha : attempt i with
      | transportErr e => simpa [chatLoop, ha] using this
      | response status bodyRead =>
        rw [ha] at h0
        simp only [HttpOutcome.retriable] at h0
        simpa [chatLoop, ha, if_pos h0] using this

/-- C3 counterexample: with a retry budget of 3, a first attempt that
returns status 200 with an undecodable body makes `SendChatRequest` fail
after exactly one invocation — a malformed response body is not retried up
to the budget, refuting the claim that every failure class is retried
identically. -/
theorem sendChatRequest_no_retry_on_malformed_body :
    (sendChatRequest 3 failDecode malformedBodyAttempt).2 = 1 ∧
    (sendChatRequest 3 failDecode malformedBodyAttempt).1 =
      .error (.wrap "failed to unmarshal response"
        (some (.base "invalid character"))) ∧
    (sendChatRequest 3 failDecode malformedBodyAttempt).2 ≠ 3 + 1 := by
  exact ⟨rfl, rfl, by decide⟩

/-- C3 (amended): `SendChatRequest` retries exactly the transport failures
and the non-success statuses — if every attempt fails in one of those two
ways, it makes `n+1` attempts and surfaces an error — while a malformed
(undecodable) 200-response body is surfaced immediately, without consuming
the remaining retry budget; the client therefore does distinguish these
failure classes. -/
theorem sendChatRequest_retry_classes (n : Nat)
    (decode : String → Except GoErr String) (attempt : Nat → HttpOutcome) :
    ((∀ i, (attempt i).retriable) →
      (sendChatRequest n decode attempt).2 = n + 1 ∧
      ∃ e, (sendChatRequest n decode attempt).1 = .error e) ∧
    (∀ k b e2, k ≤ n → (∀ j, j < k → (attempt j).retriable) →
      attempt k = .response 200 (.ok b) → decode b = .error e2 →
      sendChatRequest n decode attempt =
        (.error (.wrap "failed to unmarshal response" (some e2)), k + 1)) := by
  constructor
  · intro h
    have := chatLoop_all_retriable n decode attempt n 0 (fun j _ => by
      simpa using h j)
    simpa [sendChatRequest] using this
  · intro k b e2 hk hpre hatt hdec
    have := chatLoop_stop_200 n decode attempt k 0 n hk
      (fun j hj => by simpa using hpre j hj) b (by simpa using hatt)
    unfold sendChatRequest
    rw [this]
    simp [chatFinish, hdec]

/-- Witness for the amended C3: with budget 1, two 500 responses exhaust
both attempts; with budget 3, a transport failure, a 500, then a 200 with
an undecodable body stop the loop after the third attempt with the
unmarshal error, leaving the remaining budget unused. -/
theorem sendChatRequest_retry_classes_witness :
    ((sendChatRequest 1 failDecode always500Attempt).2 = 1 + 1 ∧
      ∃ e, (sendChatRequest 1 failDecode always500Attempt).1 = .error e) ∧
    sendChatRequest 3 failDecode mixedMalformedAttempt =
      (.error (.wrap "failed to unmarshal response"
        (some (.base "invalid character"))), 2 + 1) :=
  ⟨(sendChatRequest_retry_classes 1 failDecode always500Attempt).1
      (fun i => by simp only [always500Attempt, HttpOutcome.retriable]; omega),
   (sendChatRequest_retry_classes 3 failDecode mixedMalformedAttempt).2
      2 "garbage" (.base "invalid character") (by omega)
      (fun j hj => by interval_cases j <;> decide) rfl rfl⟩

theorem getRequiredEnv_isOk_false_iff (env : Env) (k : String) :
    (getRequiredEnv env k).isOk = false ↔ reqMissing env k := by
  cases h : env k with
  | none => simp [getRequiredEnv, reqMissing, h, Except.isOk, Except.toBool]
  | some v =>
    by_cases hv : v = "" <;>
      simp [getRequiredEnv, reqMissing, h, hv, Except.isOk, Except.toBool]

theorem optParse_parse_fail {A : Type} (parse : String → Option A) (env : Env)
    (k : String) (d : A) (s : String) (hs : env k = some s) (hne : s ≠ "")
    (hp : parse s = none) : optParse parse env k d = d := by
  simp [optParse, getEnv, hs, hne, hp]

theorem loadConfig_ok_shape (pd atoi : String → Option Int) (env : Env)
    (cfg : AppConfig) (h : loadConfig pd atoi env = .ok cfg) :
    cfg.RequestTimeout = optParse pd env "REQUEST_TIMEOUT" (30 * second) ∧
    cfg.SlackAPIRetryCount = optParse atoi env "SLACK_API_RETRY_COUNT" 3 ∧
    cfg.SlackAPIRetryDelay = optParse pd env "SLACK_API_RETRY_DELAY" second ∧
    cfg.BackendAPIRetryCount = optParse atoi env "BACKEND_API_RETRY_COUNT" 3 ∧
    cfg.BackendAPIRetryDelay = optParse pd env "BACKEND_API_RETRY_DELAY" second := by
  unfold loadConfig at h
  cases h1 : getRequiredEnv env "SLACK_APP_TOKEN" <;> rw [h1] at h
  case error => exact Except.noConfusion h
  cases h2 : getRequiredEnv env "SLACK_BOT_TOKEN" <;> rw [h2] at h
  case error => exact Except.noConfusion h
  cases h3 : getRequiredEnv env "CHAT_BACKEND_URL" <;> rw [h3] at h
  case error => exact Except.noConfusion h
  have := Except.ok.inj h
  rw [← this]
  exact ⟨rfl, rfl, rfl, rfl, rfl⟩

/-- C10: `LoadConfig` fails exactly when one of the three required
environment variables (`SLACK_APP_TOKEN`, `SLACK_BOT_TOKEN`,
`CHAT_BACKEND_URL`) is unset or empty, for every behaviour of the duration
and integer parsers; and on success every optional parameter whose value is
set but unparsable silently falls back to its documented default (30s
request timeout, 3 retries, 1s retry delay for each leg). -/
theorem loadConfig_error_iff_required_missing (pd atoi : String → Option Int)
    (env : Env) :
    ((loadConfig pd atoi env).isOk = false ↔
      (reqMissing env "SLACK_APP_TOKEN" ∨ reqMissing env "SLACK_BOT_TOKEN" ∨
       reqMissing env "CHAT_BACKEND_URL")) ∧
    (∀ cfg, loadConfig pd atoi env = .ok cfg →
      ((∀ s, env "REQUEST_TIMEOUT" = some s → s ≠ "" → pd s = none →
          cfg.RequestTimeout = 30 * second) ∧
       (∀ s, env "SLACK_API_RETRY_COUNT" = some s → s ≠ "" → atoi s = none →
          cfg.SlackAPIRetryCount = 3) ∧
       (∀ s, env "SLACK_API_RETRY_DELAY" = some s → s ≠ "" → pd s = none →
          cfg.SlackAPIRetryDelay = second) ∧
       (∀ s, env "BACKEND_API_RETRY_COUNT" = some s → s ≠ "" → atoi s = none →
          cfg.BackendAPIRetryCount = 3) ∧
       (∀ s, env "BACKEND_API_RETRY_DELAY" = some s → s ≠ "" → pd s = none →
          cfg.BackendAPIRetryDelay = second))) := by
  constructor
  · cases h1 : getRequiredEnv env "SLACK_APP_TOKEN" with
    | error e1 =>
      have m1 : reqMissing env "SLACK_APP_TOKEN" :=
        (getRequiredEnv_isOk_false_iff env "SLACK_APP_TOKEN").mp
          (by rw [h1]; rfl)
      simp [loadConfig, h1, Except.isOk, Except.toBool, m1]
    | ok v1 =>
      have m1 : ¬ reqMissing env "SLACK_APP_TOKEN" := by
        intro hm
        have hh := (getRequiredEnv_isOk_false_iff env "SLACK_APP_TOKEN").mpr hm
        rw [h1] at hh
        exact Bool.noConfusion hh
      cases h2 : getRequiredEnv env "SLACK_BOT_TOKEN" with
      | error e2 =>
        have m2 : reqMissing env "SLACK_BOT_TOKEN" :=
          (getRequiredEnv_isOk_false_iff env "SLACK_BOT_TOKEN").mp
            (by rw [h2]; rfl)
        simp [loadConfig, h1, h2, Except.isOk, Except.toBool, m2]
      | ok v2 =>
        have m2 : ¬ reqMissing env "SLACK_BOT_TOKEN" := by
          intro hm
          have hh := (getRequiredEnv_isOk_false_iff env "SLACK_BOT_TOKEN").mpr hm
          rw [h2] at hh
          exact Bool.noConfusion hh
        cases h3 : getRequiredEnv env "CHAT_BACKEND_URL" with
        | error e3 =>
          have m3 : reqMissing env "CHAT_BACKEND_URL" :=
            (getRequiredEnv_isOk_false_iff env "CHAT_BACKEND_URL").mp
              (by rw [h3]; rfl)
          simp [loadConfig, h1, h2, h3, Except.isOk, Except.toBool, m3]
        | ok v3 =>
          have m3 : ¬ reqMissing env "CHAT_BACKEND_URL" := by
            intro hm
            have hh := (getRequiredEnv_isOk_false_iff env "CHAT_BACKEND_URL").mpr hm
            rw [h3] at hh
            exact Bool.noConfusion hh
          simp [loadConfig, h1, h2, h3, Except.isOk, Except.toBool, m1, m2, m3]
  · intro cfg hcfg
    obtain ⟨f1, f2, f3, f4, f5⟩ := loadConfig_ok_shape pd atoi env cfg hcfg
    refine ⟨?_, ?_, ?_, ?_, ?_⟩ <;> intro s hs hne hp
    · rw [f1]; exact optParse_parse_fail pd env "REQUEST_TIMEOUT" (30 * second) s hs hne hp
    · rw [f2]; exact optParse_parse_fail atoi env "SLACK_API_RETRY_COUNT" 3 s hs hne hp
    · rw [f3]; exact optParse_parse_fail pd env "SLACK_API_RETRY_DELAY" second s hs hne hp
    · rw [f4]; exact optParse_parse_fail atoi env "BACKEND_API_RETRY_COUNT" 3 s hs hne hp
    · rw [f5]; exact optParse_parse_fail pd env "BACKEND_API_RETRY_DELAY" second s hs hne hp

/-- Witness for C10: `env0` sets the three required variables and a
malformed `REQUEST_TIMEOUT`; loading succeeds (for parsers rejecting every
string) and the timeout falls back to its 30-second default. -/
theorem loadConfig_error_iff_required_missing_witness :
    (loadConfig pd0 atoi0 env0).isOk = true ∧
    ∀ cfg, loadConfig pd0 atoi0 env0 = .ok cfg →
      cfg.RequestTimeout = 30 * second :=
  ⟨rfl, fun cfg hcfg =>
    ((loadConfig_error_iff_required_missing pd0 atoi0 env0).2 cfg hcfg).1
      "thirty seconds" (by decide) (by decide) rfl⟩

/-- Witness for C9: registering `111` then `222` under `C1-U1`. -/
theorem register_overwrites_witness :
    (Tracker.register (Tracker.register Tracker.empty "C1-U1" "111") "C1-U1" "222") "C1-U1"
      = some "222" ∧
    Tracker.register (Tracker.register Tracker.empty "C1-U1" "111") "C1-U1" "222"
      = Tracker.register Tracker.empty "C1-U1" "222" ∧
    (Tracker.register (Tracker.register Tracker.empty "C1-U1" "111") "C1-U1" "222") "C1-U1"
      ≠ some "111" :=
  register_overwrites Tracker.empty "C1-U1" "111" "222" (by decide)

end ChatRelay
